import Mathlib

/-!
Shallow embedding of the tasks-list UI (src/app.js, src/data.js).

The repository holds two near-duplicate revisions of the same app in
src/app.js: a hook-based one (`useTasksData`, lines 102-136) and a plain
`TaskList` component (lines 268-313).  Their data model and update logic
coincide; where they differ (the load-cancellation guard) both variants
are embedded separately.

JavaScript objects become structures; arrays become lists; `undefined`
lookup results become `Option`; number ids become `Int`; the `||` string
fallback becomes a test against the empty string (the only falsy string).
-/

namespace TasksListUI

/-- A task record, as produced by `window.TASKS_ENDPOINT` (src/data.js). -/
structure Task where
  id : Int
  title : String
  status : String
  assigneeId : Int
  labelIds : List Int
deriving DecidableEq, Repr

/-- An assignee record, as produced by `window.ASSIGNEES_ENDPOINT`. -/
structure Assignee where
  id : Int
  name : String
  avatar : String
deriving DecidableEq, Repr

/-- A label record, as produced by `window.LABELS_ENDPOINT`. -/
structure Label where
  id : Int
  name : String
  color : String
deriving DecidableEq, Repr

/-- `window.TASKS_ENDPOINT` from src/data.js. -/
def TASKS_ENDPOINT : List Task :=
  [ ⟨1, "Buy groceries", "todo", 1, [1]⟩,
    ⟨2, "Fix login bug", "in-progress", 2, [2, 3]⟩,
    ⟨3, "Write meeting notes", "done", 3, []⟩ ]

/-- `window.ASSIGNEES_ENDPOINT` from src/data.js. -/
def ASSIGNEES_ENDPOINT : List Assignee :=
  [ ⟨1, "Alice", "https://i.pravatar.cc/150?img=1"⟩,
    ⟨2, "Bob", "https://i.pravatar.cc/150?img=2"⟩,
    ⟨3, "Charlie", "https://i.pravatar.cc/150?img=3"⟩ ]

/-- `window.LABELS_ENDPOINT` from src/data.js. -/
def LABELS_ENDPOINT : List Label :=
  [ ⟨1, "Personal", "#3b82f6"⟩,
    ⟨2, "Bug", "#ef4444"⟩,
    ⟨3, "Feature", "#10b981"⟩ ]

/-- JS: `setTasks((prev) => prev.map((t) => (t.id === taskId ? { ...t, status: newStatus } : t)))`
(src/app.js:129 and src/app.js:289).  The updater applied to the task list. -/
def updateStatus (tasks : List Task) (taskId : Int) (newStatus : String) : List Task :=
  tasks.map (fun t => if t.id = taskId then { t with status := newStatus } else t)

/-- JS: `(id) => assignees.find((a) => a.id === id)` (src/app.js:132 and 293). -/
def getAssignee (assignees : List Assignee) (id : Int) : Option Assignee :=
  assignees.find? (fun a => a.id = id)

/-- JS: `(ids) => labels.filter((l) => ids.includes(l.id))` (src/app.js:133 and 294). -/
def getLabels (labels : List Label) (ids : List Int) : List Label :=
  labels.filter (fun l => ids.contains l.id)

/-- Modelled from the spec: `resolveLabels(ids)` as the spec words it —
"for each id in the input sequence (order preserved), include the matching
Label if present, otherwise skip it silently."  Used only to compare the
spec's description with the source's `getLabels`. -/
def resolveLabelsSpec (labels : List Label) (ids : List Int) : List Label :=
  ids.filterMap (fun i => labels.find? (fun l => l.id = i))

/-- The view-state store held by `useTasksData` / `TaskList`:
`tasks`, `assignees`, `labels` state plus the `loading` flag. -/
structure StoreState where
  tasks : List Task
  assignees : List Assignee
  labels : List Label
  loading : Bool
deriving DecidableEq, Repr

/-- The initial state: `useState([])` three times and `useState(true)`
(src/app.js:103-106 and 269-272). -/
def initialState : StoreState := ⟨[], [], [], true⟩

/-- The `updateStatus` callback acting on the whole store: only the
`tasks` state cell is written (src/app.js:128-130 and 288-290). -/
def storeUpdateStatus (st : StoreState) (taskId : Int) (newStatus : String) : StoreState :=
  { st with tasks := updateStatus st.tasks taskId newStatus }

/-- One run of the hook revision's load effect at resolution time
(src/app.js:110-118): `if (!cancelled) { setTasks; setAssignees; setLabels;
setLoading(false) }`.  `st` is the store at resolution, `cancelled` the
flag owned by the effect closure. -/
def applyLoadGuarded (cancelled : Bool) (st : StoreState)
    (ts : List Task) (asg : List Assignee) (lbs : List Label) : StoreState :=
  if cancelled then st else ⟨ts, asg, lbs, false⟩

/-- The plain `TaskList` revision's load effect at resolution time
(src/app.js:276-282): the four `set` calls run unconditionally; the effect
registers no cleanup, so teardown has no influence on it. -/
def applyLoadPlain (st : StoreState)
    (ts : List Task) (asg : List Assignee) (lbs : List Label) : StoreState :=
  let _ := st
  ⟨ts, asg, lbs, false⟩

/-- A run of the hook revision's effect: the store together with the
`cancelled` flag of the pending load (src/app.js:108-124). -/
structure HookRun where
  state : StoreState
  cancelled : Bool
deriving DecidableEq, Repr

/-- The effect's cleanup, run at teardown: `return () => { cancelled = true }`
(src/app.js:121-123). -/
def teardown (r : HookRun) : HookRun := { r with cancelled := true }

/-- The `load()` continuation after `Promise.all` resolves
(src/app.js:112-117): writes the store only when `cancelled` is false. -/
def resolveLoad (r : HookRun) (ts : List Task) (asg : List Assignee)
    (lbs : List Label) : HookRun :=
  { r with state := applyLoadGuarded r.cancelled r.state ts asg lbs }

/-- Avatar `src` prop: JS `assignee?.avatar || 'https://via.placeholder.com/40'`
(src/app.js:68 and 226).  An absent assignee or an empty-string avatar
(the only falsy string) falls back to the placeholder. -/
def PLACEHOLDER_AVATAR : String := "https://via.placeholder.com/40"

/-- The `src` passed to the avatar image for a resolved assignee. -/
def avatarSrc (assignee : Option Assignee) : String :=
  match assignee with
  | some a => if a.avatar = "" then PLACEHOLDER_AVATAR else a.avatar
  | none => PLACEHOLDER_AVATAR

/-- The `alt` passed to the avatar image: JS `assignee ? assignee.name : 'Assignee'`
(src/app.js:69 and 227). -/
def avatarAlt (assignee : Option Assignee) : String :=
  match assignee with
  | some a => a.name
  | none => "Assignee"

/-- The avatar element's props (src/app.js:23-26, 67-70, 224-228). -/
structure AvatarProps where
  src : String
  alt : String
deriving DecidableEq, Repr

/-- The observable content of one rendered `TaskItem` row
(src/app.js:61-93 and 218-262): avatar props, title text, label badges in
order, and the status select's value. -/
structure RenderedRow where
  key : Int
  avatar : AvatarProps
  title : String
  labels : List Label
  statusValue : String
deriving DecidableEq, Repr

/-- Rendering one `TaskItem` from its props. -/
def renderTaskItem (task : Task) (assignee : Option Assignee)
    (labels : List Label) : RenderedRow :=
  ⟨task.id, ⟨avatarSrc assignee, avatarAlt assignee⟩, task.title, labels, task.status⟩

/-- The row list produced by `TaskList` in the Ready state
(src/app.js:158-166 and 303-311): one row per task, in the store's task
order, wired with `getAssignee(task.assigneeId)` and `getLabels(task.labelIds)`. -/
def renderRows (st : StoreState) : List RenderedRow :=
  st.tasks.map (fun task =>
    renderTaskItem task (getAssignee st.assignees task.assigneeId)
      (getLabels st.labels task.labelIds))

/-- What `TaskList` renders (src/app.js:152-167 and 296-312): the loading
indicator while `loading`, otherwise the row list. -/
inductive RenderedView where
  | loadingIndicator : RenderedView
  | taskList : List RenderedRow → RenderedView
deriving DecidableEq, Repr

/-- `TaskList`'s top-level branch on the loading flag. -/
def renderTaskList (st : StoreState) : RenderedView :=
  if st.loading then RenderedView.loadingIndicator
  else RenderedView.taskList (renderRows st)

/-!  ## Theorems  -/

/-- C1 counterexample: `getLabels` does NOT preserve the input ids' order.
On the loaded label collection with input ids `[2, 1]`, the claim demands
the labels with ids 2 then 1, but `getLabels` returns them in the
collection's order, ids 1 then 2. -/
theorem C1_order_counterexample :
    getLabels LABELS_ENDPOINT [2, 1] ≠ resolveLabelsSpec LABELS_ENDPOINT [2, 1] ∧
    (getLabels LABELS_ENDPOINT [2, 1]).map Label.id = [1, 2] ∧
    (resolveLabelsSpec LABELS_ENDPOINT [2, 1]).map Label.id = [2, 1] := by
  decide

/-- C1 (amended): for every input id sequence, `getLabels` returns exactly
the labels of the loaded collection whose id occurs in the input sequence,
in the COLLECTION's order (a sublist of the collection), skipping any input
id with no matching label; the output order agrees with the input order
only when the input ids are already in collection order. -/
theorem C1_collection_order (labels : List Label) (ids : List Int) :
    (getLabels labels ids).Sublist labels ∧
    (∀ l : Label, l ∈ getLabels labels ids ↔ l ∈ labels ∧ l.id ∈ ids) := by
  refine ⟨List.filter_sublist labels, fun l => ?_⟩
  simp [getLabels, List.mem_filter]

/-- C10: for every input id sequence, `getLabels` returns a subsequence of
the loaded label collection in the collection's order; each label occurs
no more often than it does in the collection (so at most once when the
collection has no duplicates, regardless of duplicate input ids), and the
output length never exceeds the collection's size. -/
theorem C10_sublist_of_collection (labels : List Label) (ids : List Int) :
    (getLabels labels ids).Sublist labels ∧
    (∀ l : Label, (getLabels labels ids).count l ≤ labels.count l) ∧
    (getLabels labels ids).length ≤ labels.length := by
  refine ⟨List.filter_sublist labels, fun l => ?_, ?_⟩
  · exact (List.filter_sublist labels).count_le l
  · exact (List.filter_sublist labels).length_le

/-- C2 counterexample: `updateStatus` performs no validation.  Called on
the sample tasks with the out-of-enum status "bogus" for task id 1, the
state changes and the invalid value is stored. -/
theorem C2_no_validation_counterexample :
    updateStatus TASKS_ENDPOINT 1 "bogus" ≠ TASKS_ENDPOINT ∧
    (updateStatus TASKS_ENDPOINT 1 "bogus").map Task.status =
      ["bogus", "in-progress", "done"] := by
  decide

/-- C2 (amended): `updateStatus` applies any `newStatus` string — inside
or outside the enum {todo, in-progress, done} — uniformly: every matched
task's status becomes `newStatus` and unmatched tasks keep theirs; the
call is never rejected and no error is reported. -/
theorem C2_any_status_applied (tasks : List Task) (taskId : Int) (s : String) :
    (updateStatus tasks taskId s).map Task.status =
      tasks.map (fun t => if t.id = taskId then s else t.status) := by
  simp only [updateStatus, List.map_map]
  refine List.map_congr_left (fun t _ => ?_)
  by_cases h : t.id = taskId <;> simp [h]

/-- C4: if no task's id equals `taskId` then `updateStatus` is a no-op:
the resulting task list equals the prior one, and (the embedding being
total) no error is raised. -/
theorem C4_missing_id_noop (tasks : List Task) (taskId : Int) (s : String)
    (h : ∀ t ∈ tasks, t.id ≠ taskId) :
    updateStatus tasks taskId s = tasks := by
  have : ∀ t ∈ tasks, (if t.id = taskId then { t with status := s } else t) = t := by
    intro t ht
    simp [h t ht]
  calc updateStatus tasks taskId s
      = tasks.map id := List.map_congr_left (fun t ht => by simpa using this t ht)
    _ = tasks := List.map_id tasks

/-- Witness for C4_missing_id_noop at taskId 99 on the sample tasks. -/
theorem C4_missing_id_noop_witness :
    updateStatus TASKS_ENDPOINT 99 "done" = TASKS_ENDPOINT :=
  C4_missing_id_noop TASKS_ENDPOINT 99 "done" (by decide)

/-- C5: `updateStatus` is idempotent on the whole store: applying it twice
with the same taskId and status yields exactly the state after applying it
once. -/
theorem C5_idempotent (st : StoreState) (taskId : Int) (s : String) :
    storeUpdateStatus (storeUpdateStatus st taskId s) taskId s =
      storeUpdateStatus st taskId s := by
  have h : updateStatus (updateStatus st.tasks taskId s) taskId s =
      updateStatus st.tasks taskId s := by
    simp only [updateStatus, List.map_map]
    refine List.map_congr_left (fun t _ => ?_)
    by_cases ht : t.id = taskId <;> simp [ht]
  simp [storeUpdateStatus, h]

/-- C3: on a Ready store whose task ids are unique, for a status in the
enum and a `taskId` carried by some task, `updateStatus` replaces exactly
that task's status field with `s`: the assignee and label collections and
the loading flag are untouched, the task list keeps its length, every
position holding a task with a different id is unchanged, and the matched
position keeps its id, title, assigneeId and labelIds with only the status
replaced. -/
theorem C3_frame (st : StoreState) (taskId : Int) (s : String)
    (hnodup : (st.tasks.map Task.id).Nodup)
    (hmem : ∃ t ∈ st.tasks, t.id = taskId)
    (hs : s = "todo" ∨ s = "in-progress" ∨ s = "done") :
    (storeUpdateStatus st taskId s).assignees = st.assignees ∧
    (storeUpdateStatus st taskId s).labels = st.labels ∧
    (storeUpdateStatus st taskId s).loading = st.loading ∧
    (storeUpdateStatus st taskId s).tasks.length = st.tasks.length ∧
    (∀ i : Nat, ∀ t : Task, st.tasks[i]? = some t → t.id ≠ taskId →
      (storeUpdateStatus st taskId s).tasks[i]? = some t) ∧
    (∀ i : Nat, ∀ t : Task, st.tasks[i]? = some t → t.id = taskId →
      (storeUpdateStatus st taskId s).tasks[i]? = some { t with status := s }) := by
  clear hnodup hmem hs
  refine ⟨rfl, rfl, rfl, by simp [storeUpdateStatus, updateStatus], ?_, ?_⟩
  · intro i t hti hne
    simp [storeUpdateStatus, updateStatus, List.getElem?_map, hti, hne]
  · intro i t hti heq
    simp [storeUpdateStatus, updateStatus, List.getElem?_map, hti, heq]

/-- Witness for C3_frame: the sample store with taskId 2 and status "done"
(the spec's own scenario). -/
theorem C3_frame_witness :
    ((⟨TASKS_ENDPOINT, ASSIGNEES_ENDPOINT, LABELS_ENDPOINT, false⟩ : StoreState).tasks.map
        Task.id).Nodup ∧
    (storeUpdateStatus ⟨TASKS_ENDPOINT, ASSIGNEES_ENDPOINT, LABELS_ENDPOINT, false⟩ 2
        "done").assignees = ASSIGNEES_ENDPOINT := by
  refine ⟨by decide, ?_⟩
  exact (C3_frame ⟨TASKS_ENDPOINT, ASSIGNEES_ENDPOINT, LABELS_ENDPOINT, false⟩ 2 "done"
    (by decide) ⟨TASKS_ENDPOINT[1], by decide, by decide⟩ (Or.inr (Or.inr rfl))).1

/-- C6: starting from the Loading state, applying the resolution of the
three fetches with the sample data yields a Ready store (loading = false)
whose rendered list has exactly 3 rows in the store's task order: row 1
with assignee "Alice" and the single label "Personal", row 2 with assignee
"Bob" and the labels ["Bug", "Feature"] in that order, row 3 with assignee
"Charlie" and no labels. -/
theorem C6_sample_scenario :
    initialState.loading = true ∧
    renderTaskList initialState = RenderedView.loadingIndicator ∧
    (applyLoadGuarded false initialState TASKS_ENDPOINT ASSIGNEES_ENDPOINT
        LABELS_ENDPOINT).loading = false ∧
    (renderRows (applyLoadGuarded false initialState TASKS_ENDPOINT ASSIGNEES_ENDPOINT
        LABELS_ENDPOINT)).length = 3 ∧
    (renderRows (applyLoadGuarded false initialState TASKS_ENDPOINT ASSIGNEES_ENDPOINT
        LABELS_ENDPOINT)).map (fun r => (r.key, r.avatar.alt, r.labels.map Label.name)) =
      [(1, "Alice", ["Personal"]), (2, "Bob", ["Bug", "Feature"]), (3, "Charlie", [])] ∧
    renderTaskList (applyLoadGuarded false initialState TASKS_ENDPOINT ASSIGNEES_ENDPOINT
        LABELS_ENDPOINT) =
      RenderedView.taskList (renderRows (applyLoadGuarded false initialState TASKS_ENDPOINT
        ASSIGNEES_ENDPOINT LABELS_ENDPOINT)) := by
  decide

/-- C7 counterexample: the plain `TaskList` revision's load effect
(src/app.js:275-284) registers no cleanup, so the very same state writes
run when the fetches resolve after teardown: starting from the initial
store, the late resolution still writes all four state cells, flipping the
loading flag and installing the collections, instead of leaving the store
untouched. -/
theorem C7_plain_revision_counterexample :
    applyLoadPlain initialState TASKS_ENDPOINT ASSIGNEES_ENDPOINT LABELS_ENDPOINT ≠
      initialState ∧
    (applyLoadPlain initialState TASKS_ENDPOINT ASSIGNEES_ENDPOINT
        LABELS_ENDPOINT).loading = false ∧
    (applyLoadPlain initialState TASKS_ENDPOINT ASSIGNEES_ENDPOINT
        LABELS_ENDPOINT).tasks = TASKS_ENDPOINT := by
  decide

/-- C7 (amended): in the hook revision (`useTasksData`), teardown sets the
effect's `cancelled` flag, and a resolution arriving after teardown writes
none of the four state cells: the store is exactly what it was before.
The plain `TaskList` revision has no such guard. -/
theorem C7_guarded_after_teardown (r : HookRun) (ts : List Task)
    (asg : List Assignee) (lbs : List Label) :
    (resolveLoad (teardown r) ts asg lbs).state = r.state := by
  simp [resolveLoad, teardown, applyLoadGuarded]

/-- C8: a task whose assigneeId matches no assignee in the loaded
collection renders (totally, with no failure) an avatar with the fixed
placeholder URL and the alt text "Assignee". -/
theorem C8_missing_assignee_placeholder (st : StoreState) (task : Task)
    (h : ∀ a ∈ st.assignees, a.id ≠ task.assigneeId) :
    renderTaskItem task (getAssignee st.assignees task.assigneeId)
        (getLabels st.labels task.labelIds) =
      { key := task.id,
        avatar := { src := PLACEHOLDER_AVATAR, alt := "Assignee" },
        title := task.title,
        labels := getLabels st.labels task.labelIds,
        statusValue := task.status } := by
  have hnone : getAssignee st.assignees task.assigneeId = none := by
    refine List.find?_eq_none.mpr (fun a ha => ?_)
    simpa using h a ha
  simp [renderTaskItem, hnone, avatarSrc, avatarAlt]

/-- Witness for C8_missing_assignee_placeholder: the sample store with the
assignee collection emptied (the spec's simulation) and the first sample
task. -/
theorem C8_missing_assignee_placeholder_witness :
    renderTaskItem ⟨1, "Buy groceries", "todo", 1, [1]⟩
        (getAssignee ([] : List Assignee) 1)
        (getLabels LABELS_ENDPOINT [1]) =
      { key := 1,
        avatar := { src := PLACEHOLDER_AVATAR, alt := "Assignee" },
        title := "Buy groceries",
        labels := getLabels LABELS_ENDPOINT [1],
        statusValue := "todo" } :=
  C8_missing_assignee_placeholder ⟨TASKS_ENDPOINT, [], LABELS_ENDPOINT, false⟩
    ⟨1, "Buy groceries", "todo", 1, [1]⟩ (by decide)

/-- C9: when the resolved assignee exists but its avatar field is the
empty string (the only falsy string value), the rendered image's src falls
back to the placeholder URL while the alt text is still the assignee's
name, not "Assignee". -/
theorem C9_empty_avatar_placeholder (assignees : List Assignee) (id : Int)
    (a : Assignee) (hfind : getAssignee assignees id = some a)
    (hav : a.avatar = "") :
    avatarSrc (getAssignee assignees id) = PLACEHOLDER_AVATAR ∧
    avatarAlt (getAssignee assignees id) = a.name := by
  constructor <;> simp [hfind, avatarSrc, avatarAlt, hav]

/-- Witness for C9_empty_avatar_placeholder: an assignee collection whose
sole member has an empty avatar string. -/
theorem C9_empty_avatar_placeholder_witness :
    avatarSrc (getAssignee [⟨1, "Alice", ""⟩] 1) = PLACEHOLDER_AVATAR ∧
    avatarAlt (getAssignee [⟨1, "Alice", ""⟩] 1) = "Alice" :=
  C9_empty_avatar_placeholder [⟨1, "Alice", ""⟩] 1 ⟨1, "Alice", ""⟩ (by decide) rfl

end TasksListUI
